import Mathlib

/-!
Shallow embedding of the netlist-graph construction and metrics engine of
`src/server.py`: the function `parse_yosys_json` (document → gates and wires)
and the statistics block of `synthesize` (gate breakdown, max fan-out and
max depth via an iterative topological sweep).

Python dicts preserve insertion order, so every dict is embedded as an
association list together with insertion-order-preserving update operations
(`dictInsert`, `dictSetdefault`).  Machine integers are embedded as `Int`
where the sign matters (in-degrees are decremented and compared to zero) and
as `Nat` where the Python value is trivially non-negative (depths, counts).
The dead local `bit_to_net` of `parse_yosys_json` (computed but never read)
is omitted.  File I/O and the Yosys subprocess are outside the embedded core:
the embedding starts from the already-loaded JSON document.
-/

namespace YosysSrv

/-- A single entry of a Yosys `bits` array: either an integer bit index or a
constant literal such as "0", "1", "x". -/
inductive Bit where
  | num (n : Int)
  | const (s : String)
deriving DecidableEq, Repr

/-- A port of the module: `direction` and `bits`, as in the Yosys JSON. -/
structure PortInfo where
  direction : String
  bits : List Bit
deriving DecidableEq, Repr

/-- A cell of the module: raw `type`, `connections` (pin → bits) and
`port_directions` (pin → "input"/"output"), as in the Yosys JSON. -/
structure CellInfo where
  type : String
  connections : List (String × List Bit)
  port_directions : List (String × String)
deriving DecidableEq, Repr

/-- A module: its `ports` and `cells` maps, in document order. -/
structure Module where
  ports : List (String × PortInfo)
  cells : List (String × CellInfo)
deriving DecidableEq, Repr

/-- The whole Yosys JSON document: its `modules` map. -/
structure Document where
  modules : List (String × Module)
deriving DecidableEq, Repr

/-- A graph node as built by `parse_yosys_json`: the Python dict
`{id, type, inputs, outputs}`. -/
structure Gate where
  id : String
  type : String
  inputs : List String
  outputs : List String
deriving DecidableEq, Repr

/-- A wire as built by `parse_yosys_json`: the Python dict
`{from, fromPort, to, toPort}`. -/
structure Wire where
  «from» : String
  fromPort : String
  «to» : String
  toPort : String
deriving DecidableEq, Repr

/-- The stats dict assembled at the end of `synthesize`. -/
structure Stats where
  totalGates : Nat
  gateBreakdown : List (String × Nat)
  maxDepth : Nat
  maxFanout : Nat
  wireCount : Nat
deriving DecidableEq, Repr

/-- The successful JSON response of `synthesize`: gates, wires and stats. -/
structure SynthResult where
  gates : List Gate
  wires : List Wire
  stats : Stats
deriving DecidableEq, Repr

/-- Python `d[k] = v` on an insertion-ordered dict: update the existing entry
in place, or append a new entry at the end. -/
def dictInsert {α : Type} : List (String × α) → String → α → List (String × α)
  | [], k, v => [(k, v)]
  | (k', v') :: rest, k, v =>
    if k' = k then (k, v) :: rest else (k', v') :: dictInsert rest k v

/-- Python `d.setdefault(k, v)` on an insertion-ordered dict. -/
def dictSetdefault {α : Type} (d : List (String × α)) (k : String) (v : α) :
    List (String × α) :=
  match d.lookup k with
  | some _ => d
  | none => d ++ [(k, v)]

/-- Python `s.lstrip("\\")`: remove every leading backslash character. -/
def lstripBackslash (s : String) : String :=
  ⟨s.data.dropWhile (fun c => c == '\\')⟩

/-- The port loop of `parse_yosys_json`: one INPUT/OUTPUT gate per integer
bit of the port.  `total` is `len(bits)` of the whole port (it decides the
`[idx]` suffix), `i` is the running `enumerate` index. -/
def portBitGates (name direction : String) (total : Nat) : Nat → List Bit → List Gate
  | _, [] => []
  | i, b :: rest =>
    (match b with
     | Bit.num n =>
       let suffix := if total > 1 then "[" ++ toString i ++ "]" else ""
       let gid := name ++ suffix
       if direction = "input" then
         [{ id := gid, type := "INPUT", inputs := [], outputs := [toString n] }]
       else if direction = "output" then
         [{ id := gid, type := "OUTPUT", inputs := [toString n], outputs := [] }]
       else []
     | Bit.const _ => []) ++ portBitGates name direction total (i + 1) rest

/-- All gates produced from the `ports` map, in document order. -/
def portGates (ports : List (String × PortInfo)) : List Gate :=
  ports.flatMap (fun p => portBitGates p.1 p.2.direction p.2.bits.length 0 p.2.bits)

/-- The connection loop of the cell branch of `parse_yosys_json`:
accumulate `(input_bits, output_bits)` over the `connections` map, looking
each pin's direction up in `port_directions` with default "input" and
skipping constant-literal bits. -/
def cellIoBits (conns : List (String × List Bit)) (dirs : List (String × String)) :
    List String × List String :=
  conns.foldl
    (fun acc c =>
      let dir := ((dirs.lookup c.1).getD "input")
      c.2.foldl
        (fun acc b =>
          match b with
          | Bit.num n =>
            if dir = "output" then (acc.1, acc.2 ++ [toString n])
            else (acc.1 ++ [toString n], acc.2)
          | Bit.const _ => acc)
        acc)
    ([], [])

/-- One gate per cell: id is the cell name, type is the raw type with leading
backslashes stripped, inputs/outputs come from `cellIoBits`. -/
def cellGate (name : String) (info : CellInfo) : Gate :=
  let io := cellIoBits info.connections info.port_directions
  { id := name, type := lstripBackslash info.type, inputs := io.1, outputs := io.2 }

/-- All gates of the first module: port gates first, then cell gates, in
document order. -/
def moduleGates (m : Module) : List Gate :=
  portGates m.ports ++ m.cells.map (fun c => cellGate c.1 c.2)

/-- The `bit_producers` dict: for every gate in order, for every output bit,
`bit_producers[bit] = gate["id"]` (a later gate silently overwrites an
earlier driver of the same bit). -/
def bitProducers (gates : List Gate) : List (String × String) :=
  gates.foldl (fun d g => g.outputs.foldl (fun d b => dictInsert d b g.id) d) []

/-- The wire loop body for one gate: `for port_idx, bit in enumerate(inputs)`,
emitting a wire when the bit has a recorded producer that is truthy (a
non-empty id) and differs from the consuming gate's id. -/
def gateWires (prod : List (String × String)) (gid : String) :
    Nat → List String → List Wire
  | _, [] => []
  | i, b :: rest =>
    (match prod.lookup b with
     | some pr =>
       if pr ≠ "" ∧ pr ≠ gid then
         [{ «from» := pr, fromPort := "out_" ++ b,
            «to» := gid, toPort := "in_" ++ toString i }]
       else []
     | none => []) ++ gateWires prod gid (i + 1) rest

/-- The full wire set: the producer map is built over all gates first, then
every gate's inputs are scanned in order. -/
def mkWires (gates : List Gate) : List Wire :=
  let prod := bitProducers gates
  gates.flatMap (fun g => gateWires prod g.id 0 g.inputs)

/-- `parse_yosys_json`: empty result when no modules are present, otherwise
gates and wires of the first module. -/
def parseYosysJson (d : Document) : List Gate × List Wire :=
  match d.modules with
  | [] => ([], [])
  | (_, m) :: _ =>
    let gates := moduleGates m
    (gates, mkWires gates)

/-- One step of the `gate_breakdown` dict update:
`gate_breakdown[t] = gate_breakdown.get(t, 0) + 1`. -/
def bump (d : List (String × Nat)) (t : String) : List (String × Nat) :=
  dictInsert d t (((d.lookup t).getD 0) + 1)

/-- The `adjacency` dict of `synthesize`: every gate id seeded with `[]`,
then every wire appends its target to its source's neighbor list. -/
def buildAdjacency (gates : List Gate) (wires : List Wire) :
    List (String × List String) :=
  let adj := gates.foldl (fun a g => dictSetdefault a g.id []) []
  wires.foldl
    (fun a w =>
      let a := dictSetdefault a w.«from» []
      dictInsert a w.«from» (((a.lookup w.«from»).getD []) ++ [w.«to»]))
    adj

/-- The `in_degree` dict of `synthesize`: every gate id seeded with `0`,
then every wire increments its target's degree. -/
def buildInDegree (gates : List Gate) (wires : List Wire) :
    List (String × Int) :=
  let deg := gates.foldl (fun d g => dictSetdefault d g.id 0) []
  wires.foldl
    (fun d w =>
      let d := dictSetdefault d w.«to» 0
      dictInsert d w.«to» (((d.lookup w.«to»).getD 0) + 1))
    deg

/-- The mutable state of the topological sweep of `synthesize`: the `depth`
dict, the `in_degree` dict, the `nxt` list being built for the following
round, and the running `max_depth`. -/
structure KSt where
  depth : List (String × Nat)
  indeg : List (String × Int)
  nxt : List String
  maxd : Nat

/-- The inner `for neighbor in adjacency.get(gid, [])` loop body of the
topological sweep, processing one dequeued gate id. -/
def kahnNode (adj : List (String × List String)) (st : KSt) (gid : String) : KSt :=
  ((adj.lookup gid).getD []).foldl
    (fun st nb =>
      let dn := max ((st.depth.lookup nb).getD 0) (((st.depth.lookup gid).getD 0) + 1)
      let degnb := ((st.indeg.lookup nb).getD 0) - 1
      { depth := dictInsert st.depth nb dn,
        indeg := dictInsert st.indeg nb degnb,
        nxt := if degnb = 0 then st.nxt ++ [nb] else st.nxt,
        maxd := max st.maxd dn })
    st

/-- One round of the `while queue:` loop: process every id of the current
queue in order. -/
def kahnRound (adj : List (String × List String)) (st : KSt) (queue : List String) : KSt :=
  queue.foldl (kahnNode adj) st

/-- The `while queue:` loop itself.  Every id enters a queue at most once
(its in-degree counts its incoming wires exactly and only reaches zero
once), so `number of gates + 1` rounds always suffice; the loop is embedded
with that bound as explicit fuel. -/
def kahnLoop (adj : List (String × List String)) :
    Nat → List String → KSt → KSt
  | 0, _, st => st
  | fuel + 1, queue, st =>
    if queue = [] then st
    else
      let st' := kahnRound adj { st with nxt := [] } queue
      kahnLoop adj fuel st'.nxt st'

/-- The statistics block of `synthesize` (after `parse_yosys_json` returns):
gate breakdown and max fan-out in one pass over the gates, then max depth by
the topological sweep. -/
def computeStats (gates : List Gate) (wires : List Wire) : Stats :=
  let bm := gates.foldl
    (fun p g =>
      (bump p.1 g.type,
       max p.2 ((wires.filter (fun w => w.«from» == g.id)).length)))
    (([] : List (String × Nat)), 0)
  let adj := buildAdjacency gates wires
  let indeg := buildInDegree gates wires
  let depth0 := adj.map (fun p => (p.1, (0 : Nat)))
  let queue0 := (indeg.filter (fun p => p.2 == 0)).map (fun p => p.1)
  let final := kahnLoop adj (gates.length + 1) queue0
    { depth := depth0, indeg := indeg, nxt := [], maxd := 0 }
  { totalGates := gates.length, gateBreakdown := bm.1, maxDepth := final.maxd,
    maxFanout := bm.2, wireCount := wires.length }

/-- The whole embedded transform: `parse_yosys_json` followed by the
statistics block, packaged as the success response of `synthesize`. -/
def synthesize (d : Document) : SynthResult :=
  let gw := parseYosysJson d
  { gates := gw.1, wires := gw.2, stats := computeStats gw.1 gw.2 }

/-- Scenario A of the spec: INPUT ports `a` (bit 2), `b` (bit 3), OUTPUT
port `y` (bit 4), one 2-input AND cell `g1` (A=2, B=3, Y=4). -/
def docA : Document :=
  ⟨[("top",
     { ports := [("a", { direction := "input", bits := [Bit.num 2] }),
                 ("b", { direction := "input", bits := [Bit.num 3] }),
                 ("y", { direction := "output", bits := [Bit.num 4] })],
       cells := [("g1",
         { type := "AND",
           connections := [("A", [Bit.num 2]), ("B", [Bit.num 3]), ("Y", [Bit.num 4])],
           port_directions := [("A", "input"), ("B", "input"), ("Y", "output")] })] })]⟩

/-- Scenario B of the spec: chain `a` → `g1` → `g2` → `y`
(a drives bit 2, g1: 2→3, g2: 3→5, y reads bit 5). -/
def docB : Document :=
  ⟨[("top",
     { ports := [("a", { direction := "input", bits := [Bit.num 2] }),
                 ("y", { direction := "output", bits := [Bit.num 5] })],
       cells := [("g1",
         { type := "N",
           connections := [("A", [Bit.num 2]), ("Y", [Bit.num 3])],
           port_directions := [("A", "input"), ("Y", "output")] }),
                 ("g2",
         { type := "N",
           connections := [("A", [Bit.num 3]), ("Y", [Bit.num 5])],
           port_directions := [("A", "input"), ("Y", "output")] })] })]⟩

/-- Scenario E of the spec: cells `c1` and `c2` both declare bit 5 as their
output; `c3` consumes bit 5. -/
def docConf : Document :=
  ⟨[("top",
     { ports := [],
       cells := [("c1",
         { type := "D", connections := [("Y", [Bit.num 5])],
           port_directions := [("Y", "output")] }),
                 ("c2",
         { type := "D", connections := [("Y", [Bit.num 5])],
           port_directions := [("Y", "output")] }),
                 ("c3",
         { type := "B", connections := [("A", [Bit.num 5])],
           port_directions := [("A", "input")] })] })]⟩

/-- The same document as `docConf` with the two conflicting driver cells
listed in the opposite order. -/
def docConfSwap : Document :=
  ⟨[("top",
     { ports := [],
       cells := [("c2",
         { type := "D", connections := [("Y", [Bit.num 5])],
           port_directions := [("Y", "output")] }),
                 ("c1",
         { type := "D", connections := [("Y", [Bit.num 5])],
           port_directions := [("Y", "output")] }),
                 ("c3",
         { type := "B", connections := [("A", [Bit.num 5])],
           port_directions := [("A", "input")] })] })]⟩

/-- A combinational cycle: `g1` reads bit 4 and drives bit 3, `g2` reads
bit 3 and drives bit 4. -/
def docCyc : Document :=
  ⟨[("top",
     { ports := [],
       cells := [("g1",
         { type := "X", connections := [("A", [Bit.num 4]), ("Y", [Bit.num 3])],
           port_directions := [("A", "input"), ("Y", "output")] }),
                 ("g2",
         { type := "X", connections := [("A", [Bit.num 3]), ("Y", [Bit.num 4])],
           port_directions := [("A", "input"), ("Y", "output")] })] })]⟩

/-- A driver whose two distinct output nets (bits 3 and 4) each have exactly
one consumer (`c1` reads 3, `c2` reads 4). -/
def docTwoNets : Document :=
  ⟨[("top",
     { ports := [],
       cells := [("g0",
         { type := "S", connections := [("Y", [Bit.num 3, Bit.num 4])],
           port_directions := [("Y", "output")] }),
                 ("c1",
         { type := "B", connections := [("A", [Bit.num 3])],
           port_directions := [("A", "input")] }),
                 ("c2",
         { type := "B", connections := [("A", [Bit.num 4])],
           port_directions := [("A", "input")] })] })]⟩

/-- Scenario D of the spec: one net (bit 9) driven by `d0` and consumed by
three distinct gate nodes `c1`, `c2`, `c3`. -/
def docD : Document :=
  ⟨[("top",
     { ports := [],
       cells := [("d0",
         { type := "D", connections := [("Y", [Bit.num 9])],
           port_directions := [("Y", "output")] }),
                 ("c1",
         { type := "B", connections := [("A", [Bit.num 9])],
           port_directions := [("A", "input")] }),
                 ("c2",
         { type := "B", connections := [("A", [Bit.num 9])],
           port_directions := [("A", "input")] }),
                 ("c3",
         { type := "B", connections := [("A", [Bit.num 9])],
           port_directions := [("A", "input")] })] })]⟩

/-- A self-loop: cell `s1` lists bit 7 both as its output and as its input,
and no other node touches bit 7. -/
def docSelf : Document :=
  ⟨[("top",
     { ports := [],
       cells := [("s1",
         { type := "L", connections := [("Y", [Bit.num 7]), ("A", [Bit.num 7])],
           port_directions := [("Y", "output"), ("A", "input")] })] })]⟩

/-- An id collision: the single-bit input port `n` (id "n") and the cell
named `n` (id "n"). -/
def docDup : Document :=
  ⟨[("top",
     { ports := [("n", { direction := "input", bits := [Bit.num 2] })],
       cells := [("n",
         { type := "B", connections := [("A", [Bit.num 2])],
           port_directions := [("A", "input")] })] })]⟩

/-- A cell whose raw type is the Yosys internal primitive string "$_AND_". -/
def docRawType : Document :=
  ⟨[("top",
     { ports := [],
       cells := [("g1",
         { type := "$_AND_", connections := [("A", [Bit.num 2]), ("Y", [Bit.num 3])],
           port_directions := [("A", "input"), ("Y", "output")] })] })]⟩

/-- Ports only, no driven consumer: no wires at all. -/
def docNoWires : Document :=
  ⟨[("top",
     { ports := [("a", { direction := "input", bits := [Bit.num 2] }),
                 ("y", { direction := "output", bits := [Bit.num 3] })],
       cells := [] })]⟩

/-- Spec-side comparison definition (from §3/§4.3 of the spec, not from the
code): the nets of a graph are all net labels occurring in any node's input
or output list. -/
def netsOf (gates : List Gate) : List String :=
  (gates.flatMap (fun g => g.inputs ++ g.outputs)).dedup

/-- Spec-side comparison definition: the consumer count of a net is the
number of nodes whose input list contains it ("number of distinct consumers
of one net", spec glossary). -/
def consumerCount (gates : List Gate) (b : String) : Nat :=
  (gates.filter (fun g => g.inputs.contains b)).length

/-- Spec-side comparison definition: a net has a driver when some node lists
it among its outputs. -/
def hasDriver (gates : List Gate) (b : String) : Bool :=
  gates.any (fun g => g.outputs.contains b)

/-- Spec-side comparison definition (§4.4): `maxFanout` as the spec states
it — the maximum over all nets of that net's consumer count, 0 if none. -/
def specMaxFanout (gates : List Gate) : Nat :=
  (netsOf gates).foldl (fun m b => max m (consumerCount gates b)) 0

/-- Spec-side comparison definition (§8): the spec's wire-count invariant —
the sum, over all nets that have a driver, of that net's consumer count. -/
def specWireCount (gates : List Gate) : Nat :=
  (((netsOf gates).filter (hasDriver gates)).map (consumerCount gates)).sum

/-- Spec-side comparison definition (§4.4/§7): whether the wire graph has a
directed cycle, decided by repeatedly deleting source nodes; `true` when a
non-empty subgraph without sources remains.  The code itself contains no
cycle detection. -/
def elimSources (wires : List Wire) : Nat → List String → Bool
  | 0, nodes => !nodes.isEmpty
  | fuel + 1, nodes =>
    if nodes.isEmpty then false
    else
      let srcs := nodes.filter (fun n =>
        !wires.any (fun w => w.«to» == n && nodes.contains w.«from»))
      if srcs.isEmpty then true
      else elimSources wires fuel (nodes.filter (fun n => !srcs.contains n))

/-- Spec-side comparison definition: cycle detection over a produced graph. -/
def specHasCycle (gates : List Gate) (wires : List Wire) : Bool :=
  elimSources wires (gates.length + 1) ((gates.map (fun g => g.id)).dedup)

/-- Boolean test matching the wire-emission condition of `gateWires`: the
bit has a recorded producer with a truthy (non-empty) id different from the
consuming gate's id. -/
def canWire (prod : List (String × String)) (gid : String) (b : String) : Bool :=
  match prod.lookup b with
  | some pr => pr != "" && pr != gid
  | none => false

theorem lookup_dictInsert_self {α : Type} (d : List (String × α)) (k : String) (v : α) :
    (dictInsert d k v).lookup k = some v := by
  induction d with
  | nil => simp [dictInsert, List.lookup_cons]
  | cons p rest ih =>
    obtain ⟨a, w⟩ := p
    by_cases h : a = k
    · simp [dictInsert, h, List.lookup_cons]
    · simp [dictInsert, h, List.lookup_cons, ih, beq_false_of_ne (Ne.symm h)]

theorem lookup_dictInsert_ne {α : Type} (d : List (String × α)) (k k' : String) (v : α)
    (h : k' ≠ k) : (dictInsert d k v).lookup k' = d.lookup k' := by
  induction d with
  | nil => simp [dictInsert, List.lookup_cons, beq_false_of_ne h]
  | cons p rest ih =>
    obtain ⟨a, w⟩ := p
    by_cases hp : a = k
    · subst hp
      simp [dictInsert, List.lookup_cons, beq_false_of_ne h]
    · by_cases hq : k' = a
      · simp [dictInsert, hp, List.lookup_cons, hq]
      · simp [dictInsert, hp, List.lookup_cons, beq_false_of_ne hq, ih]

theorem lookup_foldl_insert (l : List String) (d : List (String × String)) (v b : String) :
    (l.foldl (fun d x => dictInsert d x v) d).lookup b =
      if b ∈ l then some v else d.lookup b := by
  induction l generalizing d with
  | nil => simp
  | cons a l ih =>
    by_cases hm : b ∈ l
    · simp [List.foldl, ih, hm]
    · by_cases hb : b = a
      · subst hb
        simp [List.foldl, ih, hm, lookup_dictInsert_self]
      · simp [List.foldl, ih, hm, hb, lookup_dictInsert_ne _ _ _ _ hb]

theorem findq_append {α : Type} (p : α → Bool) (l₁ l₂ : List α) :
    (l₁ ++ l₂).find? p =
      match l₁.find? p with
      | some a => some a
      | none => l₂.find? p := by
  induction l₁ with
  | nil => simp
  | cons a l ih =>
    cases h : p a <;> simp [List.find?_cons, h, ih]

theorem lookup_foldl_outputs (gates : List Gate) (d : List (String × String)) (b : String) :
    (gates.foldl (fun d g => g.outputs.foldl (fun d x => dictInsert d x g.id) d) d).lookup b
      = match gates.reverse.find? (fun g => g.outputs.contains b) with
        | some g => some g.id
        | none => d.lookup b := by
  induction gates generalizing d with
  | nil => simp
  | cons g gates ih =>
    rw [List.foldl_cons, ih, List.reverse_cons, findq_append]
    cases hf : gates.reverse.find? (fun g => g.outputs.contains b) with
    | some g' => simp
    | none =>
      by_cases hm : b ∈ g.outputs
      · simp [List.find?, hm, lookup_foldl_insert]
      · simp [List.find?, hm, lookup_foldl_insert]

/-- The producer recorded for a bit is the id of the last gate (in
construction order) whose output list contains that bit. -/
theorem bitProducers_lookup (gates : List Gate) (b : String) :
    (bitProducers gates).lookup b =
      (gates.reverse.find? (fun g => g.outputs.contains b)).map Gate.id := by
  rw [bitProducers, lookup_foldl_outputs]
  cases gates.reverse.find? (fun g => g.outputs.contains b) <;> simp

theorem breakdown_fanout_fold (gates : List Gate) (wires : List Wire)
    (d : List (String × Nat)) (c : Nat) :
    gates.foldl
        (fun p g =>
          (bump p.1 g.type,
           max p.2 ((wires.filter (fun w => w.«from» == g.id)).length)))
        (d, c)
      = (gates.foldl (fun d g => bump d g.type) d,
         gates.foldl
           (fun m g => max m ((wires.filter (fun w => w.«from» == g.id)).length)) c) := by
  induction gates generalizing d c with
  | nil => rfl
  | cons g gates ih => simp [List.foldl_cons, ih]

theorem lookup_foldl_bump (gates : List Gate) (d : List (String × Nat)) (t : String) :
    ((gates.foldl (fun bd g => bump bd g.type) d).lookup t).getD 0
      = ((d.lookup t).getD 0) + gates.countP (fun g => g.type == t) := by
  induction gates generalizing d with
  | nil => simp
  | cons g gates ih =>
    rw [List.foldl_cons, ih, List.countP_cons]
    by_cases h : g.type = t
    · subst h
      simp [bump, lookup_dictInsert_self]
      omega
    · have h' : t ≠ g.type := Ne.symm h
      simp [bump, lookup_dictInsert_ne _ _ _ _ h', h]

theorem maxfanout_fold_nil (gates : List Gate) (c : Nat) :
    gates.foldl
        (fun m g => max m ((([] : List Wire).filter (fun w => w.«from» == g.id)).length)) c
      = c := by
  induction gates generalizing c with
  | nil => rfl
  | cons g gates ih => simp [List.foldl_cons, ih]

theorem length_gateWires (prod : List (String × String)) (gid : String)
    (i : Nat) (l : List String) :
    (gateWires prod gid i l).length = l.countP (canWire prod gid) := by
  induction l generalizing i with
  | nil => rfl
  | cons b rest ih =>
    rw [gateWires, List.length_append, ih, List.countP_cons]
    cases hl : prod.lookup b with
    | none => simp [canWire, hl]
    | some pr =>
      by_cases hc : pr ≠ "" ∧ pr ≠ gid
      · simp [canWire, hl, hc.1, hc.2]
        omega
      · have : ¬(pr != "" && pr != gid) = true := by
          simp only [Bool.and_eq_true, bne_iff_ne]
          exact fun hx => hc ⟨hx.1, hx.2⟩
        simp [canWire, hl, hc, this]

theorem mem_gateWires (prod : List (String × String)) (gid : String)
    (i : Nat) (l : List String) (w : Wire) (h : w ∈ gateWires prod gid i l) :
    w.«to» = gid ∧ w.«from» ≠ gid := by
  induction l generalizing i with
  | nil => simp [gateWires] at h
  | cons b rest ih =>
    rw [gateWires, List.mem_append] at h
    rcases h with h | h
    · cases hl : prod.lookup b with
      | none => simp [hl] at h
      | some pr =>
        by_cases hc : pr ≠ "" ∧ pr ≠ gid
        · simp [hl, hc.1, hc.2] at h
          subst h
          exact ⟨rfl, hc.2⟩
        · simp [hl, hc] at h
    · exact ih _ h

theorem cellGates_ids (cells : List (String × CellInfo)) :
    (cells.map (fun c => cellGate c.1 c.2)).map Gate.id = cells.map Prod.fst := by
  induction cells with
  | nil => rfl
  | cons c rest ih => simp [cellGate, ih]

theorem dropWhile_takeWhile_nil {α : Type} (p : α → Bool) (l : List α) :
    (l.dropWhile p).takeWhile p = [] := by
  induction l with
  | nil => rfl
  | cons a l ih =>
    cases h : p a <;> simp [List.dropWhile_cons, List.takeWhile_cons, h, ih]

/-- C1: false as stated.  On Scenario A the code reports `totalGates = 4`
(all nodes, INPUT and OUTPUT included) and a breakdown that also counts the
"INPUT" and "OUTPUT" kinds, not `totalGates = 1` with breakdown `{AND: 1}`. -/
theorem c1_counterexample :
    (synthesize docA).stats.totalGates = 4 ∧
    (synthesize docA).stats.gateBreakdown = [("INPUT", 2), ("OUTPUT", 1), ("AND", 1)] ∧
    decide ((synthesize docA).stats.totalGates = 1) = false ∧
    decide ((synthesize docA).stats.gateBreakdown = [("AND", 1)]) = false :=
  ⟨rfl, rfl, rfl, rfl⟩

/-- C1 amended: `totalGates` counts every node of the graph, INPUT and
OUTPUT nodes included, and `gateBreakdown` holds, for every type label
(including "INPUT" and "OUTPUT"), the number of nodes carrying it. -/
theorem c1_amended (gates : List Gate) (wires : List Wire) (t : String) :
    (computeStats gates wires).totalGates = gates.length ∧
    (((computeStats gates wires).gateBreakdown.lookup t).getD 0)
      = gates.countP (fun g => g.type == t) := by
  refine ⟨rfl, ?_⟩
  show (((gates.foldl
      (fun p g =>
        (bump p.1 g.type,
         max p.2 ((wires.filter (fun w => w.«from» == g.id)).length)))
      (([] : List (String × Nat)), 0)).1.lookup t).getD 0) = _
  rw [breakdown_fanout_fold]
  simpa using lookup_foldl_bump gates [] t

/-- C2: false as stated.  Two cells both drive bit 5; no DriverConflict is
reported — an ordinary wire set is returned — and the chosen driver is
whichever conflicting cell comes later in the document, so swapping the two
cells changes the resolved wire set. -/
theorem c2_counterexample :
    (synthesize docConf).wires
        = [{ «from» := "c2", fromPort := "out_5", «to» := "c3", toPort := "in_0" }] ∧
    (synthesize docConfSwap).wires
        = [{ «from» := "c1", fromPort := "out_5", «to» := "c3", toPort := "in_0" }] :=
  ⟨rfl, rfl⟩

/-- C2 amended: driver conflicts are silently resolved, never reported: the
recorded driver of a net is always the id of the last node in construction
order whose output list contains the net, so the outcome is a deterministic
function of the document order of nodes (and changes with it). -/
theorem c2_amended :
    (∀ (gates : List Gate) (b : String),
        (bitProducers gates).lookup b =
          (gates.reverse.find? (fun g => g.outputs.contains b)).map Gate.id) ∧
    (bitProducers (synthesize docConf).gates).lookup "5" = some "c2" :=
  ⟨bitProducers_lookup, rfl⟩

/-- C3: false as stated.  On a two-cell combinational cycle the spec-side
detector finds a cycle, but the code returns an ordinary stats record — the
result type has no error component at all — with `maxDepth = 0`, the same
depth report as a wire-free design. -/
theorem c3_counterexample :
    specHasCycle (synthesize docCyc).gates (synthesize docCyc).wires = true ∧
    (synthesize docCyc).stats
        = { totalGates := 2, gateBreakdown := [("X", 2)], maxDepth := 0,
            maxFanout := 1, wireCount := 2 } ∧
    (synthesize docCyc).stats.maxDepth = (synthesize docNoWires).stats.maxDepth :=
  ⟨rfl, rfl, rfl⟩

/-- C3 amended: on a cyclic input the topological sweep terminates with the
cycle's nodes never dequeued, node and wire construction output is returned
as usual, and the cycle is silently absorbed into `maxDepth = 0` instead of
being reported as an error. -/
theorem c3_amended :
    (synthesize docCyc).gates
        = [{ id := "g1", type := "X", inputs := ["4"], outputs := ["3"] },
           { id := "g2", type := "X", inputs := ["3"], outputs := ["4"] }] ∧
    (synthesize docCyc).wires
        = [{ «from» := "g2", fromPort := "out_4", «to» := "g1", toPort := "in_0" },
           { «from» := "g1", fromPort := "out_3", «to» := "g2", toPort := "in_0" }] ∧
    (synthesize docCyc).stats.maxDepth = 0 :=
  ⟨rfl, rfl, rfl⟩

/-- C4: false as stated.  On the chained design a→g1→g2→y the code reports
`maxDepth = 3`, not 2: INPUT and OUTPUT nodes are not excluded from the
depth computation. -/
theorem c4_counterexample :
    (synthesize docB).stats.maxDepth = 3 ∧
    decide ((synthesize docB).stats.maxDepth = 2) = false :=
  ⟨rfl, rfl⟩

/-- C4 amended: `maxDepth` is the longest wire-path length over ALL nodes —
no boundary set is removed, a node with no incoming wire has depth 0 and
every wire adds one — so a→g1→g2→y yields 3, Scenario A yields 2 (the
OUTPUT port is a hop), and a wire-free design yields 0. -/
theorem c4_amended :
    (synthesize docB).stats.maxDepth = 3 ∧
    (synthesize docA).stats.maxDepth = 2 ∧
    (synthesize docNoWires).stats.maxDepth = 0 :=
  ⟨rfl, rfl, rfl⟩

/-- C5: false as stated.  A node driving two distinct nets with one consumer
each: every net's consumer count is 1 (spec-side value), but the code
reports `maxFanout = 2` because it counts all wires leaving a node, summed
across that node's output nets. -/
theorem c5_counterexample :
    specMaxFanout (synthesize docTwoNets).gates = 1 ∧
    (synthesize docTwoNets).stats.maxFanout = 2 ∧
    decide ((synthesize docTwoNets).stats.maxFanout
              = specMaxFanout (synthesize docTwoNets).gates) = false :=
  ⟨rfl, rfl, rfl⟩

/-- C5 amended: `maxFanout` is the maximum over nodes of the number of wires
leaving that node (aggregated over all its output nets); it still yields 3
for one net with three distinct consumers (Scenario D), and 0 whenever there
are no wires. -/
theorem c5_amended :
    (synthesize docD).stats.maxFanout = 3 ∧
    (synthesize docTwoNets).stats.maxFanout = 2 ∧
    ∀ gates : List Gate, (computeStats gates []).maxFanout = 0 := by
  refine ⟨rfl, rfl, fun gates => ?_⟩
  show (gates.foldl
      (fun p g =>
        (bump p.1 g.type,
         max p.2 ((([] : List Wire).filter (fun w => w.«from» == g.id)).length)))
      (([] : List (String × Nat)), 0)).2 = 0
  rw [breakdown_fanout_fold]
  exact maxfanout_fold_nil gates 0

/-- C6: false as stated.  A net driven and consumed by the same node: the
spec-side sum over driven nets of consumer counts is 1, but the code emits
no wire for the self pair, so `wireCount = 0`. -/
theorem c6_counterexample :
    specWireCount (synthesize docSelf).gates = 1 ∧
    (synthesize docSelf).stats.wireCount = 0 ∧
    (synthesize docSelf).wires = [] :=
  ⟨rfl, rfl, rfl⟩

/-- C6 amended: the number of emitted wires equals the sum over all nodes of
the number of positions in that node's input list holding a net whose
recorded driver exists, has a non-empty id, and differs from the consuming
node itself — self pairs contribute no wire. -/
theorem c6_amended (gates : List Gate) :
    (mkWires gates).length
      = (gates.map
          (fun g => g.inputs.countP (canWire (bitProducers gates) g.id))).sum := by
  show (gates.flatMap
      (fun g => gateWires (bitProducers gates) g.id 0 g.inputs)).length = _
  rw [List.length_flatMap]
  simp only [Function.comp_def, length_gateWires]

/-- C7: false as stated.  A single-bit port named "n" and a cell named "n"
produce two nodes with the same id "n". -/
theorem c7_counterexample :
    ((synthesize docDup).gates.map Gate.id) = ["n", "n"] ∧
    decide (((synthesize docDup).gates.map Gate.id).Nodup) = false :=
  ⟨rfl, rfl⟩

/-- C7 amended: node ids are pairwise distinct provided the port-bit-derived
ids are pairwise distinct, the cell names are pairwise distinct, and no cell
name equals a port-bit id; without the disjointness assumption duplicates
occur. -/
theorem c7_amended (m : Module)
    (h1 : ((portGates m.ports).map Gate.id).Nodup)
    (h2 : (m.cells.map Prod.fst).Nodup)
    (h3 : ∀ x ∈ (portGates m.ports).map Gate.id, x ∉ m.cells.map Prod.fst) :
    ((moduleGates m).map Gate.id).Nodup := by
  rw [moduleGates, List.map_append, cellGates_ids]
  exact List.Nodup.append h1 h2 (fun a ha hb => h3 a ha hb)

/-- C7 amended witness: a concrete module satisfying the hypotheses. -/
theorem c7_witness :
    ((moduleGates
        { ports := [("a", { direction := "input", bits := [Bit.num 2] })],
          cells := [("g1",
            { type := "B", connections := [("A", [Bit.num 2])],
              port_directions := [("A", "input")] })] }).map Gate.id).Nodup :=
  c7_amended _ (by decide) (by decide) (by decide)

/-- C8: a document with no modules yields the valid empty result: no gates,
no wires, and all-zero metrics (a Document is its modules map, so the
module-free document is exactly `⟨[]⟩`). -/
theorem c8_empty_document :
    synthesize ⟨[]⟩
      = { gates := [], wires := [],
          stats := { totalGates := 0, gateBreakdown := [], maxDepth := 0,
                     maxFanout := 0, wireCount := 0 } } :=
  rfl

/-- C9: false as stated.  The internal 2-input-AND primitive "$_AND_" keeps
its leading marker and trailing underscore: the node's type label is
"$_AND_", not the clean "AND". -/
theorem c9_counterexample :
    ((synthesize docRawType).gates.map Gate.type) = ["$_AND_"] ∧
    decide (((synthesize docRawType).gates.map Gate.type) = ["AND"]) = false :=
  ⟨rfl, rfl⟩

/-- C9 amended: the type label strips only leading backslash characters from
the raw tool type string — "\\AND" becomes "AND", but the internal-primitive
marker "$_" and trailing underscores survive, so "$_AND_" stays "$_AND_".
The first conjunct states the general fact: the canonicalized label never
retains a leading run of backslashes. -/
theorem c9_amended :
    (∀ s : String, ((lstripBackslash s).data.takeWhile (fun c => c == '\\')) = []) ∧
    (cellGate "g1"
        { type := "\\AND", connections := [], port_directions := [] }).type = "AND" ∧
    (cellGate "g1"
        { type := "$_AND_", connections := [], port_directions := [] }).type = "$_AND_" :=
  ⟨fun s => dropWhile_takeWhile_nil _ s.data, rfl, rfl⟩

/-- C10: confirmed.  No emitted wire ever has its driver equal to its
consumer: when a node's input bit resolves to the node itself as producer,
the wire is silently suppressed, so the wire set contains no self loop. -/
theorem c10_no_self_wires (gates : List Gate) :
    ((mkWires gates).all (fun w => w.«from» != w.«to»)) = true := by
  rw [List.all_eq_true]
  intro w hw
  have hw' : w ∈ gates.flatMap
      (fun g => gateWires (bitProducers gates) g.id 0 g.inputs) := hw
  rw [List.mem_flatMap] at hw'
  obtain ⟨g, _, hwg⟩ := hw'
  have hto := mem_gateWires (bitProducers gates) g.id 0 g.inputs w hwg
  rw [bne_iff_ne]
  rw [hto.1]
  exact hto.2

end YosysSrv
